import Mathlib

/-!
Verification of the pronunciation scoring engine in
`src/ml/pronunciation_score.py` (class `PronunciationScore`).

The Python code is shallowly embedded: strings become `List Char`
(Python `str.replace`/`str.lower`/`in` become list operations),
Python floats become `ℚ` (the concrete constants 0.95, 0.4, … are
exact decimals, and every comparison settled below is far from any
float rounding boundary), the two dynamic-programming tables become
structurally recursive table functions, and fallible code returns
`Except`.
-/

namespace Hermes

/-! ### Data model -/

/-- Kind tag of a phoneme mismatch, mirroring the `"type"` field of the
dicts built by `PronunciationScore._find_phoneme_mismatches`. -/
inductive MismatchType where
  | substitution
  | omission
  | insertion
deriving DecidableEq

/-- One phoneme mismatch, mirroring the dict
`{"position": …, "expected": …, "actual": …, "type": …}` built by
`_find_phoneme_mismatches`; `None` becomes `Option.none`. -/
structure Mismatch where
  position : ℕ
  expected : Option Char
  actual : Option Char
  kind : MismatchType
deriving DecidableEq

/-! ### Python string helpers -/

/-- `s.replace(" ", "")`: drop every space character. -/
def removeSpaces (l : List Char) : List Char :=
  l.filter (fun c => c != ' ')

/-- `s.replace(" ", "").lower()`: the cleaning applied to both arguments at
the top of `_calculate_phoneme_similarity` (ASCII lowering). -/
def cleanText (l : List Char) : List Char :=
  (removeSpaces l).map Char.toLower

/-- `s.strip()`: drop leading and trailing whitespace. -/
def pyStrip (l : List Char) : List Char :=
  ((l.dropWhile Char.isWhitespace).reverse.dropWhile Char.isWhitespace).reverse

/-- `target_word.lower().strip()` as computed in `score_pronunciation`. -/
def pyLowerStrip (l : List Char) : List Char :=
  pyStrip (l.map Char.toLower)

/-- Is the first list a (contiguous) prefix of the second? -/
def isPrefixOfL : List Char → List Char → Bool
  | [], _ => true
  | _ :: _, [] => false
  | c :: cs, d :: ds => c == d && isPrefixOfL cs ds

/-- Python substring containment `a in b` (contiguous occurrence of the
first list inside the second; the empty list occurs in every list). -/
def isSubstrOfL : List Char → List Char → Bool
  | n, [] => isPrefixOfL n []
  | n, d :: ds => isPrefixOfL n (d :: ds) || isSubstrOfL n ds

/-! ### `_levenshtein_distance`

The Python function fills the classic table row by row:
`previous_row = range(len(s2)+1)`, then for each character `c1` of `s1`
the new row starts with `i+1` and each further cell is
`min(previous_row[j+1]+1, current_row[j]+1, previous_row[j]+(c1!=c2))`.
`levRow` is one row of this table (`prev` is the previous row as a
function of the column, `base` the first cell), and `levD s1 s2 i j`
is the cell of row `i`, column `j`. -/

/-- One row of the `_levenshtein_distance` table. -/
def levRow (s2 : List Char) (c1 : Char) (prev : ℕ → ℕ) (base : ℕ) : ℕ → ℕ
  | 0 => base
  | j + 1 =>
    let insertions := prev (j + 1) + 1
    let deletions := levRow s2 c1 prev base j + 1
    let substitutions := prev j + (if c1 = s2.getD j ' ' then 0 else 1)
    min (min insertions deletions) substitutions

/-- The full `_levenshtein_distance` table: `levD s1 s2 i j` is the
edit-distance cell for the length-`i` prefix of `s1` and the
length-`j` prefix of `s2`. -/
def levD (s1 s2 : List Char) : ℕ → ℕ → ℕ
  | 0, j => j
  | i + 1, j => levRow s2 (s1.getD i ' ') (levD s1 s2 i) (i + 1) j

/-- `PronunciationScore._levenshtein_distance`: the code first swaps the
arguments so the first is the longer, then reads off the last cell of
the last row (the `len(s2) == 0` early return is the `j = 0` column). -/
def levenshtein_distance (s1 s2 : List Char) : ℕ :=
  if s1.length < s2.length then levD s2 s1 s2.length s1.length
  else levD s1 s2 s1.length s2.length

/-! ### `_calculate_phoneme_similarity` -/

/-- `PronunciationScore._calculate_phoneme_similarity`: ordered policy —
exact equality → 1.0; target substring of recognized → 0.95; recognized
substring of target → 0.90; otherwise the clamped weighted blend
`0.3·Jaccard + 0.5·(1 − levenshtein/maxLen) + 0.2·(minLen/maxLen)`. -/
def calculate_phoneme_similarity (recognized target : List Char) : ℚ :=
  let r := cleanText recognized
  let t := cleanText target
  if r = t then 1
  else if isSubstrOfL t r then 0.95
  else if isSubstrOfL r t then 0.90
  else
    let setR := r.toFinset
    let setT := t.toFinset
    let inter := setR ∩ setT
    let union := setR ∪ setT
    let jaccard : ℚ := if 0 < union.card then (inter.card : ℚ) / (union.card : ℚ) else 0
    let editDistance := levenshtein_distance r t
    let maxLen := max r.length t.length
    let levenshteinSimilarity : ℚ :=
      if 0 < maxLen then 1 - (editDistance : ℚ) / (maxLen : ℚ) else 0
    let lenRatio : ℚ :=
      if 0 < maxLen then ((min r.length t.length : ℕ) : ℚ) / (maxLen : ℚ) else 0
    max 0 (min 1 (jaccard * 0.3 + levenshteinSimilarity * 0.5 + lenRatio * 0.2))

/-! ### Score fusion (`score_pronunciation`, score-calculation block) -/

/-- The guard `is_perfect_match or is_near_perfect` of the lenient branch
in `score_pronunciation` (`is_near_perfect = phoneme_match >= 0.95`). -/
def isLenientGuard (isPerfectMatch : Bool) (phonemeMatch : ℚ) : Bool :=
  isPerfectMatch || decide (phonemeMatch ≥ 0.95)

/-- The guard the spec states for leniency: `phonemeSimilarity >= 0.95`
alone. Written from the spec (§4.4) for comparison with
`isLenientGuard`, which is what the code computes. -/
def isLenientSpec (phonemeMatch : ℚ) : Bool :=
  decide (phonemeMatch ≥ 0.95)

/-- The score-calculation block of `score_pronunciation`: the branch on
`is_perfect_match or is_near_perfect`, the piecewise dtw-score maps, the
clamp, `phoneme_score = phoneme_match * 100`, and the dynamically
weighted, clamped overall score. Returns
`(dtw_score, phoneme_score, overall_score)`. -/
def scoreFusion (isPerfectMatch : Bool) (dtwDistance phonemeMatch : ℚ) :
    ℚ × ℚ × ℚ :=
  let dtwRaw : ℚ :=
    if isLenientGuard isPerfectMatch phonemeMatch then
      if dtwDistance < 4 then 95
      else if dtwDistance < 6 then 88
      else if dtwDistance < 8 then 80
      else 72
    else
      if dtwDistance < 3 then 100
      else if dtwDistance < 5.5 then 100 - (dtwDistance - 3) * 10
      else if dtwDistance < 8 then 75 - (dtwDistance - 5.5) * 12
      else max 40 (45 - (dtwDistance - 8) * 3)
  let dtwScore := max 0 (min 100 dtwRaw)
  let phonemeScore := phonemeMatch * 100
  let overall :=
    if phonemeMatch > 0.8 then dtwScore * 0.4 + phonemeScore * 0.6
    else dtwScore * 0.5 + phonemeScore * 0.5
  (dtwScore, phonemeScore, max 0 (min 100 overall))

/-- The scoring path of `score_pronunciation` from the recognized user
text, the raw target word and the DTW distance to the three numeric
scores: clean the target (`target_word.lower().strip()`), compare
(`is_perfect_match = (user_text == target_word_clean)`), compute the
phoneme similarity, and fuse. -/
def scorePronunciationScores (userText targetWord : List Char)
    (dtwDistance : ℚ) : ℚ × ℚ × ℚ :=
  let targetWordClean := pyLowerStrip targetWord
  let phonemeMatch := calculate_phoneme_similarity userText targetWordClean
  scoreFusion (userText == targetWordClean) dtwDistance phonemeMatch

/-! ### `_find_phoneme_mismatches`

The Python function removes spaces from both IPA strings, fills the
classic Levenshtein table
`dp[i][j] = dp[i-1][j-1]` if the symbols match, else
`1 + min(dp[i-1][j], dp[i][j-1], dp[i-1][j-1])`, and then backtracks
from `dp[m][n]`, emitting one mismatch dict per non-match step.
`alignRow`/`alignD` are the table (row by row, as functions of the
column index), `btRow`/`backtrackAlign` the backtracking loop. -/

/-- One row of the `_find_phoneme_mismatches` table (`prev` is the
previous row, `base` the value of column 0, `c1` the current user
phoneme). -/
def alignRow (t : List Char) (c1 : Char) (prev : ℕ → ℕ) (base : ℕ) : ℕ → ℕ
  | 0 => base
  | j + 1 =>
    if c1 = t.getD j ' ' then prev j
    else 1 + min (min (prev (j + 1)) (alignRow t c1 prev base j)) (prev j)

/-- The full `_find_phoneme_mismatches` table: `alignD u t i j` is
`dp[i][j]`, the edit distance between the length-`i` prefix of the user
phonemes and the length-`j` prefix of the target phonemes. -/
def alignD (u t : List Char) : ℕ → ℕ → ℕ
  | 0, j => j
  | i + 1, j => alignRow t (u.getD i ' ') (alignD u t i) (i + 1) j

/-- The backtracking loop of `_find_phoneme_mismatches` for `i = 0`:
with `i = 0` and `j > 0` the Python `elif` chain always takes the
omission branch, because `dp[0][j] = dp[0][j-1] + 1` holds for every
`j > 0`. -/
def btZeroRow (t : List Char) : ℕ → List Mismatch
  | 0 => []
  | j + 1 =>
    { position := j + 1, expected := some (t.getD j ' '), actual := none,
      kind := .omission } :: btZeroRow t j

/-- The backtracking loop of `_find_phoneme_mismatches` for a fixed
user index `i + 1` (`prevBt` is the loop continued from user index `i`).
The branch order mirrors the Python `if`/`elif` chain: exact match,
substitution (`dp[i][j] == dp[i-1][j-1] + 1`), omission
(`dp[i][j] == dp[i][j-1] + 1`), else insertion. Positions are the
current (1-based) loop indices `j` resp. `i`, exactly as the code
records them. -/
def btRow (u t : List Char) (prevBt : ℕ → List Mismatch) (i : ℕ) :
    ℕ → List Mismatch
  | 0 =>
    { position := i + 1, expected := none, actual := some (u.getD i ' '),
      kind := .insertion } :: prevBt 0
  | j + 1 =>
    if u.getD i ' ' = t.getD j ' ' then prevBt j
    else if alignD u t (i + 1) (j + 1) = alignD u t i j + 1 then
      { position := j + 1, expected := some (t.getD j ' '),
        actual := some (u.getD i ' '), kind := .substitution } :: prevBt j
    else if alignD u t (i + 1) (j + 1) = alignD u t (i + 1) j + 1 then
      { position := j + 1, expected := some (t.getD j ' '), actual := none,
        kind := .omission } :: btRow u t prevBt i j
    else
      { position := i + 1, expected := none, actual := some (u.getD i ' '),
        kind := .insertion } :: prevBt (j + 1)

/-- The full backtracking loop, from table position `(i, j)` down to
`(0, 0)`, in emission order (last mismatch of the strings first, as the
Python loop appends them). -/
def backtrackAlign (u t : List Char) : ℕ → ℕ → List Mismatch
  | 0, j => btZeroRow t j
  | i + 1, j => btRow u t (backtrackAlign u t i) i j

/-- `PronunciationScore._find_phoneme_mismatches`: remove spaces from
both IPA strings, backtrack through the edit-distance table from
`(m, n)`, and return the mismatches reversed into left-to-right order. -/
def find_phoneme_mismatches (user_ipa target_ipa : List Char) : List Mismatch :=
  let user_phones := removeSpaces user_ipa
  let target_phones := removeSpaces target_ipa
  (backtrackAlign user_phones target_phones user_phones.length
    target_phones.length).reverse

/-! ### `compute_dtw_distance` and the `fastdtw` library call

`compute_dtw_distance` transposes the two MFCC matrices into time-major
frame sequences and calls `fastdtw(user_seq, ref_seq, dist=euclidean)`.
For inputs where either sequence has fewer than `radius + 2 = 3` frames
— in particular all empty-input cases settled below — `fastdtw`
delegates directly to its exact `dtw` routine, which is what is
embedded here (the recursive coarsening used for longer inputs is not
modelled, and no theorem below evaluates the model on such inputs).

The library's `dtw` keeps a `defaultdict` whose default entry is the
1-tuple `(inf,)` and whose filled entries are triples
`(cost, prev_i, prev_j)`; we model an entry as a pair of a
`WithTop ℚ` cost and an `Option` predecessor (`none` for the missing
components of the default 1-tuple). Reading index 1 of the 1-tuple
raises an untyped `IndexError`, modelled by `PyError.indexError`.
The per-frame Euclidean distance is kept abstract as the parameter
`dist` (its values are irrational reals; no theorem below depends on
them). -/

/-- Untyped Python exceptions escaping the DTW code. `loopLimit` is an
artefact of the fuelled embedding of the backtracking `while` loop and
is unreachable for the tables produced by `dtwD`. -/
inductive PyError where
  | indexError
  | loopLimit
deriving DecidableEq

/-- Python `min(…, key=lambda a: a[0])` over two candidates: keeps the
first on ties. -/
def minByCost (a b : WithTop ℚ × (ℕ × ℕ)) : WithTop ℚ × (ℕ × ℕ) :=
  if b.1 < a.1 then b else a

/-- One row (`i + 1`) of the `fastdtw` cost table `D`; entries outside
`1 ≤ i ≤ len(x), 1 ≤ j ≤ len(y)` are the `defaultdict` default
`(inf,)`, i.e. `(⊤, none)`. -/
def dtwRow (dist : List ℚ → List ℚ → ℚ) (x y : List (List ℚ))
    (prev : ℕ → WithTop ℚ × Option (ℕ × ℕ)) (i : ℕ) :
    ℕ → WithTop ℚ × Option (ℕ × ℕ)
  | 0 => ((⊤ : WithTop ℚ), none)
  | j + 1 =>
    if i + 1 ≤ x.length ∧ j + 1 ≤ y.length then
      let dt : WithTop ℚ := ((dist (x.getD i []) (y.getD j []) : ℚ) : WithTop ℚ)
      let c1 := ((prev (j + 1)).1 + dt, (i, j + 1))
      let c2 := ((dtwRow dist x y prev i j).1 + dt, (i + 1, j))
      let c3 := ((prev j).1 + dt, (i, j))
      let best := minByCost (minByCost c1 c2) c3
      (best.1, some best.2)
    else ((⊤ : WithTop ℚ), none)

/-- The `fastdtw` cost table: `D[0,0] = (0, (0, 0))`, every other
unfilled key is the default `(inf,)`, and each filled cell takes the
first minimum of `(D[i-1,j][0]+dt, i-1, j)`, `(D[i,j-1][0]+dt, i, j-1)`,
`(D[i-1,j-1][0]+dt, i-1, j-1)`. -/
def dtwD (dist : List ℚ → List ℚ → ℚ) (x y : List (List ℚ)) :
    ℕ → ℕ → WithTop ℚ × Option (ℕ × ℕ)
  | 0, 0 => ((0 : WithTop ℚ), some (0, 0))
  | 0, _ + 1 => ((⊤ : WithTop ℚ), none)
  | i + 1, j => dtwRow dist x y (dtwD dist x y i) i j

/-- The backtracking `while not (i == j == 0)` loop of the library's
`dtw`: append `(i-1, j-1)`, then follow the stored predecessor; looking
up a predecessor of a default `(inf,)` entry raises `IndexError`. The
loop is fuelled; `dtw` below supplies enough fuel for every reachable
table. The collected pairs are reversed at the end, as in the library. -/
def dtwPathAux (D : ℕ → ℕ → WithTop ℚ × Option (ℕ × ℕ)) :
    ℕ → ℕ → ℕ → List (ℕ × ℕ) → Except PyError (List (ℕ × ℕ))
  | 0, i, j, acc =>
    if i = 0 ∧ j = 0 then .ok acc.reverse else .error .loopLimit
  | fuel + 1, i, j, acc =>
    if i = 0 ∧ j = 0 then .ok acc.reverse
    else
      match (D i j).2 with
      | none => .error .indexError
      | some (pi, pj) => dtwPathAux D fuel pi pj (acc ++ [(i - 1, j - 1)])

/-- The result distance of `compute_dtw_distance`:
`distance / np.sqrt(len(path))` is represented symbolically by the pair
(raw cumulative cost, path length), since the square root is
irrational; a zero `pathLength` stands for NumPy's `0/0.0 = nan`. -/
structure NormalizedDtw where
  rawCost : WithTop ℚ
  pathLength : ℕ
deriving DecidableEq

/-- The library `dtw` entry point: build the table, backtrack from
`(len(x), len(y))`, and return the final cumulative cost with the
path. -/
def dtwLib (dist : List ℚ → List ℚ → ℚ) (x y : List (List ℚ)) :
    Except PyError (WithTop ℚ × List (ℕ × ℕ)) :=
  let D := dtwD dist x y
  match dtwPathAux D (x.length + y.length + 1) x.length y.length [] with
  | .error e => .error e
  | .ok path => .ok ((D x.length y.length).1, path)

/-- `PronunciationScore.compute_dtw_distance` (composed with the
library's exact `dtw` path, see the section comment): no emptiness
check of any kind is performed; the raw distance is normalized by
`sqrt(len(path))`. -/
def compute_dtw_distance (dist : List ℚ → List ℚ → ℚ)
    (x y : List (List ℚ)) : Except PyError (NormalizedDtw × List (ℕ × ℕ)) :=
  match dtwLib dist x y with
  | .error e => .error e
  | .ok (cost, path) =>
    .ok ({ rawCost := cost, pathLength := path.length }, path)

/-! ### `_generate_feedback` and the result dictionary -/

/-- The sentences `_generate_feedback` can append, one constructor per
literal string in the Python code (the text itself is presentational;
constructor order follows the source). -/
inductive FeedbackPart where
  | excellent
  | veryGood
  | good
  | decent
  | fair
  | keepPracticing
  | heard (recognized target : List Char)
  | speakClearly
  | clarityAndRhythm
  | timingAndRhythm
  | eachSound
  | naturalPace
deriving DecidableEq

/-- `PronunciationScore._generate_feedback`: the deterministic rule
cascade (overall band headline; heard-vs-expected when the cleaned
texts differ and the phoneme score is low; clarity/timing/articulation
tips; pacing tip), as the ordered list of appended sentences. -/
def generate_feedback (overall dtw phoneme : ℚ)
    (recognized target : List Char) (dtwDistance : ℚ) : List FeedbackPart :=
  let headline : FeedbackPart :=
    if overall ≥ 90 then .excellent
    else if overall ≥ 80 then .veryGood
    else if overall ≥ 70 then .good
    else if overall ≥ 60 then .decent
    else if overall ≥ 50 then .fair
    else .keepPracticing
  let recognizedClean := removeSpaces recognized
  let targetClean := removeSpaces target
  let parts := [headline]
  let parts := parts ++
    (if recognizedClean ≠ targetClean ∧ phoneme < 80 then
      [if recognized ≠ [] then FeedbackPart.heard recognized target
       else FeedbackPart.speakClearly]
     else [])
  let parts := parts ++
    (if dtw < 70 ∧ phoneme < 70 then [FeedbackPart.clarityAndRhythm]
     else if dtw < 70 then [FeedbackPart.timingAndRhythm]
     else if phoneme < 70 then [FeedbackPart.eachSound]
     else [])
  parts ++ (if dtwDistance > 6 then [FeedbackPart.naturalPace] else [])

/-- The optional phoneme analysis dict returned by
`_analyze_phoneme_differences` on success (its feedback text is
presentational and omitted here). -/
structure PhonemeAnalysis where
  user_ipa : List Char
  target_ipa : List Char
  mismatches : List Mismatch
deriving DecidableEq

/-- An exception raised inside the `try` block around the phoneme
analysis stage of `score_pronunciation`. -/
inductive AnalysisError where
  | espeakFailure
  | otherFailure
deriving DecidableEq

/-- Round half to even (Python `round` on an exact decimal). -/
def roundHalfEven (x : ℚ) : ℤ :=
  let f := ⌊x⌋
  let r := x - (f : ℚ)
  if r < 1/2 then f
  else if 1/2 < r then f + 1
  else if f % 2 = 0 then f else f + 1

/-- Python `round(x, ndigits)` on exact decimals. -/
def pyRound (x : ℚ) (ndigits : ℕ) : ℚ :=
  let p : ℚ := (10 : ℚ) ^ ndigits
  ((roundHalfEven (x * p) : ℚ)) / p

/-- The result dictionary of `score_pronunciation` (non-debug mode:
`metrics` and `debug_info` are `None` and the wall-clock metrics are
not modelled). -/
structure ScoreResult where
  overall_score : ℚ
  dtw_score : ℚ
  phoneme_score : ℚ
  recognized_text : List Char
  target_word : List Char
  reference_text : List Char
  dtw_distance : ℚ
  alignment_quality : ℕ
  feedback : List FeedbackPart
  phoneme_analysis : Option PhonemeAnalysis
deriving DecidableEq

/-- The tail of `score_pronunciation` after the three numeric scores are
computed: run the optional phoneme-analysis stage (its outcome is the
`analysis` argument: an exception, or a returned value that may itself
be `None`), swallow any exception (`except Exception` keeps
`phoneme_analysis = None`), generate feedback, and build the result
dictionary. -/
def scorePronunciationResult (overallScore dtwScore phonemeScore : ℚ)
    (userText targetWordClean refText : List Char)
    (dtwDistance : ℚ) (alignmentQuality : ℕ)
    (analysis : Except AnalysisError (Option PhonemeAnalysis)) : ScoreResult :=
  let phonemeAnalysis : Option PhonemeAnalysis :=
    match analysis with
    | .ok v => v
    | .error _ => none
  { overall_score := pyRound overallScore 1
    dtw_score := pyRound dtwScore 1
    phoneme_score := pyRound phonemeScore 1
    recognized_text := userText
    target_word := targetWordClean
    reference_text := refText
    dtw_distance := pyRound dtwDistance 3
    alignment_quality := alignmentQuality
    feedback := generate_feedback overallScore dtwScore phonemeScore
      userText targetWordClean dtwDistance
    phoneme_analysis := phonemeAnalysis }

/-! ## Theorems

### Unfolding equations for the two DP tables -/

theorem alignD_zero (u t : List Char) (j : ℕ) : alignD u t 0 j = j := rfl

theorem alignD_succ_zero (u t : List Char) (i : ℕ) :
    alignD u t (i + 1) 0 = i + 1 := rfl

theorem alignD_at_zero (u t : List Char) (i : ℕ) : alignD u t i 0 = i := by
  cases i with
  | zero => rfl
  | succ i => rfl

theorem alignD_succ_succ (u t : List Char) (i j : ℕ) :
    alignD u t (i + 1) (j + 1) =
      if u.getD i ' ' = t.getD j ' ' then alignD u t i j
      else 1 + min (min (alignD u t i (j + 1)) (alignD u t (i + 1) j))
        (alignD u t i j) := rfl

theorem levD_zero (s1 s2 : List Char) (j : ℕ) : levD s1 s2 0 j = j := rfl

theorem levD_succ_zero (s1 s2 : List Char) (i : ℕ) :
    levD s1 s2 (i + 1) 0 = i + 1 := rfl

theorem levD_succ_succ (s1 s2 : List Char) (i j : ℕ) :
    levD s1 s2 (i + 1) (j + 1) =
      min (min (levD s1 s2 i (j + 1) + 1) (levD s1 s2 (i + 1) j + 1))
        (levD s1 s2 i j + if s1.getD i ' ' = s2.getD j ' ' then 0 else 1) := rfl

theorem backtrackAlign_zero_zero (u t : List Char) :
    backtrackAlign u t 0 0 = [] := rfl

theorem backtrackAlign_zero_succ (u t : List Char) (j : ℕ) :
    backtrackAlign u t 0 (j + 1) =
      { position := j + 1, expected := some (t.getD j ' '), actual := none,
        kind := .omission } :: backtrackAlign u t 0 j := rfl

theorem backtrackAlign_succ_zero (u t : List Char) (i : ℕ) :
    backtrackAlign u t (i + 1) 0 =
      { position := i + 1, expected := none, actual := some (u.getD i ' '),
        kind := .insertion } :: backtrackAlign u t i 0 := rfl

theorem backtrackAlign_succ_succ (u t : List Char) (i j : ℕ) :
    backtrackAlign u t (i + 1) (j + 1) =
      if u.getD i ' ' = t.getD j ' ' then backtrackAlign u t i j
      else if alignD u t (i + 1) (j + 1) = alignD u t i j + 1 then
        { position := j + 1, expected := some (t.getD j ' '),
          actual := some (u.getD i ' '), kind := .substitution } ::
          backtrackAlign u t i j
      else if alignD u t (i + 1) (j + 1) = alignD u t (i + 1) j + 1 then
        { position := j + 1, expected := some (t.getD j ' '), actual := none,
          kind := .omission } :: backtrackAlign u t (i + 1) j
      else
        { position := i + 1, expected := none, actual := some (u.getD i ' '),
          kind := .insertion } :: backtrackAlign u t i (j + 1) := rfl

/-! ### The backtrace emits exactly one mismatch per unit of edit cost -/

theorem length_backtrackAlign (u t : List Char) :
    ∀ i j, (backtrackAlign u t i j).length = alignD u t i j := by
  intro i
  induction i with
  | zero =>
    intro j
    induction j with
    | zero => rfl
    | succ j ihj =>
      rw [backtrackAlign_zero_succ, List.length_cons, ihj, alignD_zero,
        alignD_zero]
  | succ i ihi =>
    intro j
    induction j with
    | zero =>
      rw [backtrackAlign_succ_zero, List.length_cons, ihi 0, alignD_at_zero,
        alignD_at_zero]
    | succ j ihj =>
      rw [backtrackAlign_succ_succ]
      split_ifs with h1 h2 h3
      · rw [ihi j, alignD_succ_succ, if_pos h1]
      · rw [List.length_cons, ihi j, h2]
      · rw [List.length_cons, ihj, h3]
      · rw [List.length_cons, ihi (j + 1)]
        rw [alignD_succ_succ, if_neg h1] at h2 h3 ⊢
        omega

/-! ### Adjacent cells of the alignment table differ by at most one -/

theorem alignD_neighbor (u t : List Char) :
    ∀ i j, (alignD u t (i + 1) j ≤ alignD u t i j + 1 ∧
            alignD u t i j ≤ alignD u t (i + 1) j + 1) ∧
           (alignD u t i (j + 1) ≤ alignD u t i j + 1 ∧
            alignD u t i j ≤ alignD u t i (j + 1) + 1) := by
  intro i
  induction i with
  | zero =>
    intro j
    induction j with
    | zero =>
      simp only [alignD_zero, alignD_succ_zero]
      omega
    | succ j ihj =>
      obtain ⟨⟨v1, v2⟩, -⟩ := ihj
      simp only [alignD_zero] at v1 v2 ⊢
      rw [alignD_succ_succ u t 0 j]
      simp only [alignD_zero]
      split_ifs with h <;> omega
  | succ i ihi =>
    intro j
    induction j with
    | zero =>
      obtain ⟨-, h3, h4⟩ := ihi 0
      simp only [alignD_at_zero] at h3 h4 ⊢
      rw [alignD_succ_succ u t i 0]
      simp only [alignD_at_zero]
      split_ifs with h <;> omega
    | succ j ihj =>
      obtain ⟨⟨b1, b2⟩, b3, b4⟩ := ihi (j + 1)
      obtain ⟨⟨c1, c2⟩, c3, c4⟩ := ihj
      constructor
      · rw [alignD_succ_succ u t (i + 1) j]
        split_ifs with h <;> omega
      · rw [alignD_succ_succ u t i (j + 1)]
        split_ifs with h <;> omega

/-! ### The two DP tables agree, and the table is symmetric -/

theorem levD_eq_alignD (s1 s2 : List Char) :
    ∀ i j, levD s1 s2 i j = alignD s1 s2 i j := by
  intro i
  induction i with
  | zero => intro j; rfl
  | succ i ihi =>
    intro j
    induction j with
    | zero => rfl
    | succ j ihj =>
      obtain ⟨⟨-, n1⟩, -, n2⟩ := alignD_neighbor s1 s2 i j
      rw [levD_succ_succ, alignD_succ_succ, ihi j, ihi (j + 1), ihj]
      split_ifs with h <;> omega

theorem alignD_symm (u t : List Char) :
    ∀ i j, alignD u t i j = alignD t u j i := by
  intro i
  induction i with
  | zero =>
    intro j
    rw [alignD_zero, alignD_at_zero]
  | succ i ihi =>
    intro j
    induction j with
    | zero => rw [alignD_at_zero, alignD_zero]
    | succ j ihj =>
      rw [alignD_succ_succ, alignD_succ_succ, ihi j, ihi (j + 1), ihj]
      split_ifs with h1 h2 h3
      · rfl
      · exact absurd h1.symm h2
      · exact absurd h3.symm h1
      · omega

theorem levenshtein_distance_eq_alignD (u t : List Char) :
    levenshtein_distance u t = alignD u t u.length t.length := by
  unfold levenshtein_distance
  split_ifs with h
  · rw [levD_eq_alignD, alignD_symm]
  · rw [levD_eq_alignD]

/-- Claim C3: for every pair of phoneme sequences, the mismatch list returned
by `_find_phoneme_mismatches` has exactly as many entries as the
Levenshtein edit distance computed by `_levenshtein_distance` between
the (space-stripped) sequences: every backtrace step that is not an
exact match emits exactly one mismatch. -/
theorem mismatch_count_eq_edit_distance (user_ipa target_ipa : List Char) :
    (find_phoneme_mismatches user_ipa target_ipa).length =
      levenshtein_distance (removeSpaces user_ipa) (removeSpaces target_ipa) := by
  simp only [find_phoneme_mismatches]
  rw [List.length_reverse, length_backtrackAlign,
    levenshtein_distance_eq_alignD]

/-! ### Branch lemmas for `_calculate_phoneme_similarity` -/

theorem calculate_phoneme_similarity_eq_branch (r t : List Char)
    (h : cleanText r = cleanText t) :
    calculate_phoneme_similarity r t = 1 := by
  simp only [calculate_phoneme_similarity]
  rw [if_pos h]

theorem calculate_phoneme_similarity_target_substr (r t : List Char)
    (h1 : ¬ cleanText r = cleanText t)
    (h2 : isSubstrOfL (cleanText t) (cleanText r) = true) :
    calculate_phoneme_similarity r t = 0.95 := by
  simp only [calculate_phoneme_similarity]
  rw [if_neg h1, if_pos h2]

theorem calculate_phoneme_similarity_recognized_substr (r t : List Char)
    (h1 : ¬ cleanText r = cleanText t)
    (h2 : ¬ isSubstrOfL (cleanText t) (cleanText r) = true)
    (h3 : isSubstrOfL (cleanText r) (cleanText t) = true) :
    calculate_phoneme_similarity r t = 0.90 := by
  simp only [calculate_phoneme_similarity]
  rw [if_neg h1, if_neg h2, if_pos h3]

theorem calculate_phoneme_similarity_blend (r t : List Char)
    (h1 : ¬ cleanText r = cleanText t)
    (h2 : ¬ isSubstrOfL (cleanText t) (cleanText r) = true)
    (h3 : ¬ isSubstrOfL (cleanText r) (cleanText t) = true) :
    calculate_phoneme_similarity r t =
      max 0 (min 1
        ((if 0 < ((cleanText r).toFinset ∪ (cleanText t).toFinset).card then
            (((cleanText r).toFinset ∩ (cleanText t).toFinset).card : ℚ) /
              (((cleanText r).toFinset ∪ (cleanText t).toFinset).card : ℚ)
          else 0) * 0.3 +
         (if 0 < max (cleanText r).length (cleanText t).length then
            1 - (levenshtein_distance (cleanText r) (cleanText t) : ℚ) /
              ((max (cleanText r).length (cleanText t).length : ℕ) : ℚ)
          else 0) * 0.5 +
         (if 0 < max (cleanText r).length (cleanText t).length then
            ((min (cleanText r).length (cleanText t).length : ℕ) : ℚ) /
              ((max (cleanText r).length (cleanText t).length : ℕ) : ℚ)
          else 0) * 0.2)) := by
  simp only [calculate_phoneme_similarity]
  rw [if_neg h1, if_neg h2, if_neg h3]

theorem calculate_phoneme_similarity_self (s : List Char) :
    calculate_phoneme_similarity s s = 1 :=
  calculate_phoneme_similarity_eq_branch s s rfl

/-! ### The claims about score fusion and word similarity -/

/-- Claim C2: the lenient dtw-score mapping is applied exactly when the
computed phoneme similarity is at least 0.95: the code's guard
`is_perfect_match or is_near_perfect` is equivalent to the spec's
single condition `phonemeSimilarity >= 0.95`, because equality of the
two compared strings forces `_calculate_phoneme_similarity` to
return 1.0. -/
theorem lenient_guard_iff_spec (u tc : List Char) :
    isLenientGuard (u == tc) (calculate_phoneme_similarity u tc) = true ↔
      isLenientSpec (calculate_phoneme_similarity u tc) = true := by
  simp only [isLenientGuard, isLenientSpec, Bool.or_eq_true, decide_eq_true_eq,
    beq_iff_eq]
  constructor
  · rintro (h | h)
    · subst h
      rw [calculate_phoneme_similarity_self]
      norm_num
    · exact h
  · exact fun h => Or.inr h

theorem isSubstrOfL_nil_left (l : List Char) : isSubstrOfL [] l = true := by
  cases l with
  | nil => rfl
  | cons d ds => rfl

/-- Claim C10: for every target whose cleaned form is non-empty (in
particular every non-empty space-free word) and an empty recognized
text, `_calculate_phoneme_similarity` returns exactly 0.90: the empty
string counts as a substring of the target under the third rule, so the
weighted blend is never reached. -/
theorem empty_recognized_similarity (t : List Char)
    (h : cleanText t ≠ []) :
    calculate_phoneme_similarity [] t = 0.90 := by
  apply calculate_phoneme_similarity_recognized_substr
  · show ¬ cleanText [] = cleanText t
    exact fun hh => h hh.symm
  · show ¬ isSubstrOfL (cleanText t) (cleanText []) = true
    cases hc : cleanText t with
    | nil => exact absurd hc h
    | cons c cs => exact fun hh => Bool.noConfusion hh
  · exact isSubstrOfL_nil_left _

/-- Witness for C10 at the concrete target word "run". -/
theorem empty_recognized_similarity_witness :
    calculate_phoneme_similarity [] "run".toList = 0.90 :=
  empty_recognized_similarity "run".toList (by decide)

/-- Claim C8: the word similarity function returns 1.0 on
("run", "run"), at least 0.9 on ("running", "run") (substring rule,
0.95), and below 0.5 on ("xyz", "run") (weighted blend
`0.3·Jaccard + 0.5·(1 − levenshtein/maxLen) + 0.2·(minLen/maxLen)`,
here 0.2). -/
theorem word_similarity_examples :
    calculate_phoneme_similarity "run".toList "run".toList = 1 ∧
    calculate_phoneme_similarity "running".toList "run".toList ≥ 0.9 ∧
    calculate_phoneme_similarity "xyz".toList "run".toList < 0.5 := by
  refine ⟨calculate_phoneme_similarity_self _, ?_, ?_⟩
  · rw [calculate_phoneme_similarity_target_substr _ _ (by decide) (by decide)]
    norm_num
  · rw [calculate_phoneme_similarity_blend _ _ (by decide) (by decide)
      (by decide)]
    rw [show ((cleanText "xyz".toList).toFinset ∩
        (cleanText "run".toList).toFinset).card = 0 from by decide]
    rw [show ((cleanText "xyz".toList).toFinset ∪
        (cleanText "run".toList).toFinset).card = 6 from by decide]
    rw [show levenshtein_distance (cleanText "xyz".toList)
        (cleanText "run".toList) = 3 from by decide]
    rw [show (cleanText "xyz".toList).length = 3 from by decide]
    rw [show (cleanText "run".toList).length = 3 from by decide]
    norm_num [min_def, max_def]

/-- Claim C1: for target word "hello", recognized text "hello" and DTW
distance 2.0, the fusion takes the lenient branch and yields
`dtw_score = 95`, `phoneme_score = 100` and
`overall_score = 0.4·95 + 0.6·100 = 98`. -/
theorem scenarioA_exact_match :
    scorePronunciationScores "hello".toList "hello".toList 2 =
      (95, 100, 98) := by
  simp only [scorePronunciationScores]
  rw [show pyLowerStrip "hello".toList = "hello".toList from by decide]
  rw [calculate_phoneme_similarity_self]
  rw [show ("hello".toList == "hello".toList) = true from by decide]
  simp only [scoreFusion, isLenientGuard, Bool.true_or]
  norm_num [min_def, max_def]

/-- Claim C7: for every branch flag, every DTW distance ≥ 0 and every
phoneme similarity in [0, 1], the three outputs of the fusion
(dtw score, phoneme score, overall score) each lie within [0, 100]. -/
theorem scoreFusion_bounds (isPerfect : Bool) (d s : ℚ)
    (hd : 0 ≤ d) (hs0 : 0 ≤ s) (hs1 : s ≤ 1) :
    (0 ≤ (scoreFusion isPerfect d s).1 ∧ (scoreFusion isPerfect d s).1 ≤ 100) ∧
    (0 ≤ (scoreFusion isPerfect d s).2.1 ∧
      (scoreFusion isPerfect d s).2.1 ≤ 100) ∧
    (0 ≤ (scoreFusion isPerfect d s).2.2 ∧
      (scoreFusion isPerfect d s).2.2 ≤ 100) := by
  simp only [scoreFusion]
  refine ⟨⟨le_max_left _ _, max_le (by norm_num) (min_le_left _ _)⟩,
    ⟨by nlinarith, by nlinarith⟩,
    ⟨le_max_left _ _, max_le (by norm_num) (min_le_left _ _)⟩⟩

/-- Witness for C7 at a concrete lenient input. -/
theorem scoreFusion_bounds_witness :
    (0 ≤ (scoreFusion true 2 1).1 ∧ (scoreFusion true 2 1).1 ≤ 100) ∧
    (0 ≤ (scoreFusion true 2 1).2.1 ∧ (scoreFusion true 2 1).2.1 ≤ 100) ∧
    (0 ≤ (scoreFusion true 2 1).2.2 ∧ (scoreFusion true 2 1).2.2 ≤ 100) :=
  scoreFusion_bounds true 2 1 (by norm_num) (by norm_num) (by norm_num)

/-! ### The claims about the phoneme aligner output -/

/-- Claim C5, counterexample: aligning target `["k","æ","t"]` against
actual `["b","æ","t"]` does not return a substitution at position 0 —
the code records the loop index `j`, which is still 1-based at the
moment of the append. -/
theorem scenarioC_position_zero_counterexample :
    find_phoneme_mismatches ['b', 'æ', 't'] ['k', 'æ', 't'] ≠
      [{ position := 0, expected := some 'k', actual := some 'b',
         kind := .substitution }] := by decide

/-- Claim C5 as amended: the alignment returns exactly one mismatch, a
substitution with expected "k" and actual "b", at (1-based) position 1. -/
theorem scenarioC_substitution_position_one :
    find_phoneme_mismatches ['b', 'æ', 't'] ['k', 'æ', 't'] =
      [{ position := 1, expected := some 'k', actual := some 'b',
         kind := .substitution }] := by decide

/-! ### The claims about DTW on empty inputs -/

/-- Claim C6, counterexample: on an empty input the acoustic aligner
does not fail with a typed `EmptySequence` error (no such error exists
anywhere in the code); it raises the untyped `IndexError` that escapes
the DTW library's backtracking loop. -/
theorem dtw_empty_input_untyped_error :
    compute_dtw_distance (fun _ _ => 0) [[(1 : ℚ)]] [] =
      Except.error PyError.indexError := rfl

/-- Claim C6 as amended: `compute_dtw_distance` performs no emptiness
check; when exactly one input is empty the library's backtracking loop
raises an untyped `IndexError`, and when both are empty it returns a
NaN distance (`0 / sqrt(0)`) with an empty path instead of failing. -/
theorem compute_dtw_distance_empty_input (dist : List ℚ → List ℚ → ℚ)
    (x y : List (List ℚ)) (h : x = [] ∨ y = []) :
    compute_dtw_distance dist x y =
      if x = [] ∧ y = [] then
        Except.ok ({ rawCost := 0, pathLength := 0 }, [])
      else Except.error PyError.indexError := by
  rcases h with h | h
  · subst h
    cases y with
    | nil =>
      rw [if_pos ⟨rfl, rfl⟩]
      rfl
    | cons b ys =>
      rw [if_neg (by simp)]
      rfl
  · subst h
    cases x with
    | nil =>
      rw [if_pos ⟨rfl, rfl⟩]
      rfl
    | cons a xs =>
      rw [if_neg (by simp)]
      rfl

/-- Witness for C6 at a concrete empty first input. -/
theorem compute_dtw_distance_empty_input_witness :
    compute_dtw_distance (fun _ _ => 0) [] [[(1 : ℚ)]] =
      Except.error PyError.indexError := by
  have h := compute_dtw_distance_empty_input (fun _ _ => 0) [] [[(1 : ℚ)]]
    (Or.inl rfl)
  rw [if_neg (by decide)] at h
  exact h

/-! ### The claim about the optional phoneme-analysis stage -/

/-- Claim C9: if the optional phoneme-analysis stage fails with any
exception, `score_pronunciation` still returns the full result with the
`phoneme_analysis` field `None`, and every other field — in particular
the three numeric scores — is identical to what a successful stage
would have produced: the stage never alters the numeric scores and its
failure never aborts scoring. -/
theorem analysis_failure_keeps_result (ov dw ph dd : ℚ)
    (u tc r : List Char) (aq : ℕ) (e : AnalysisError)
    (pa : Option PhonemeAnalysis) :
    scorePronunciationResult ov dw ph u tc r dd aq (Except.error e) =
      { scorePronunciationResult ov dw ph u tc r dd aq (Except.ok pa) with
          phoneme_analysis := none } := rfl

end Hermes
